import Mathlib

/-!
Verification of `samples/analytics/management_v3_reference.py`
(Google Analytics Management API v3 reference sample).

The script is embedded shallowly: API responses are JSON-like values
(`JVal`), Python dictionary access (`dict.get`), subscripting and
iteration are modelled as functions that may raise the Python errors the
interpreter would raise, and every `print_...` function of the script is
translated to a Lean function returning the list of printed lines
together with an optional uncaught error (`Out`).  `print` with several
lines in one string keeps the embedded newline, matching the script's
`print('No accounts found.\n')` calls.
-/

/-- JSON-like values as they appear in a deserialized Google API response.
`null` doubles as Python `None` (the JSON decoder maps `null` to `None`). -/
inductive JVal where
  | null : JVal
  | bool : Bool → JVal
  | num : Int → JVal
  | str : String → JVal
  | arr : List JVal → JVal
  | obj : List (String × JVal) → JVal
deriving Repr

/-- The Python exceptions the script can raise or catch:
`TypeError` (caught in `main`), `HttpError` with an HTTP status and a
reason (caught in `main`), `AccessTokenRefreshError` (caught in `main`),
and `AttributeError` / `IndexError` / `KeyError` (uncaught). -/
inductive PyError where
  | typeError : String → PyError
  | httpError : Nat → String → PyError
  | accessTokenRefreshError : PyError
  | attributeError : PyError
  | indexError : PyError
  | keyError : PyError
deriving Repr, DecidableEq

/-- Result of running a piece of the script: the lines printed so far and,
when a Python exception escaped, that exception.  Lines printed before the
exception are kept, as they are on a real console. -/
abbrev Out := List String × Option PyError

/-- `print(s)`: one printed line, no error. -/
def pln (s : String) : Out := ([s], none)

/-- Sequencing of two statements: if the first raised, the second never
runs and its output is dropped. -/
def andThen (a b : Out) : Out :=
  match a.2 with
  | some _ => a
  | none => (a.1 ++ b.1, b.2)

/-- Sequencing of a block of statements. -/
def seqAll : List Out → Out
  | [] => ([], none)
  | a :: rest => andThen a (seqAll rest)

/-- Running a statement that first needs a value from a fallible
expression (`bindV x f` is `f` applied to the value of `x`, or the
exception of `x` with no output). -/
def bindV (x : Except PyError JVal) (f : JVal → Out) : Out :=
  match x with
  | .error e => ([], some e)
  | .ok v => f v

/-- `bindV` for a fallible expression producing a list of values
(the result of setting up an iteration). -/
def bindL (x : Except PyError (List JVal)) (f : List JVal → Out) : Out :=
  match x with
  | .error e => ([], some e)
  | .ok v => f v

/-- Python `d.get(k)`: on a dict, the stored value, or `None` when the key
is absent; on anything that is not a dict (including `None`), an
`AttributeError`, since only dicts have a `get` method here. -/
def pyGet : JVal → String → Except PyError JVal
  | .obj fs, k => .ok ((List.lookup k fs).getD .null)
  | _, _ => .error .attributeError

/-- Python `d.get(k, default)`: the default is used only when the key is
absent (a stored `null` is returned as is). -/
def pyGetD : JVal → String → JVal → Except PyError JVal
  | .obj fs, k, d => .ok ((List.lookup k fs).getD d)
  | _, _, _ => .error .attributeError

/-- Python truthiness of a deserialized JSON value: `None`, `False`, `0`,
the empty string, the empty list and the empty dict are falsy. -/
def pyTruthy : JVal → Bool
  | .null => false
  | .bool b => b
  | .num n => n != 0
  | .str s => s != ""
  | .arr l => !l.isEmpty
  | .obj fs => !fs.isEmpty

/-- Python `v[0]`: first element of a list or string, `IndexError` when
empty, `KeyError` on a dict (`0` is not one of its string keys),
`TypeError` otherwise. -/
def pyIndex0 : JVal → Except PyError JVal
  | .arr (x :: _) => .ok x
  | .arr [] => .error .indexError
  | .str s =>
    match s.data with
    | c :: _ => .ok (.str (String.mk [c]))
    | [] => .error .indexError
  | .obj _ => .error .keyError
  | _ => .error (.typeError "object is not subscriptable")

/-- Python iteration `for x in v`: the elements of a list, the one-character
strings of a string, the keys of a dict; `TypeError` otherwise. -/
def pyIter : JVal → Except PyError (List JVal)
  | .arr l => .ok l
  | .str s => .ok (s.data.map (fun c => .str (String.mk [c])))
  | .obj fs => .ok (fs.map (fun p => .str p.1))
  | _ => .error (.typeError "object is not iterable")

mutual

/-- Python `repr` of a deserialized JSON value. -/
def pyRepr : JVal → String
  | .null => "None"
  | .bool true => "True"
  | .bool false => "False"
  | .num n => toString n
  | .str s => "\x27" ++ s ++ "\x27"
  | .arr l => "[" ++ pyReprArr l ++ "]"
  | .obj fs => "\x7b" ++ pyReprObj fs ++ "\x7d"

/-- `repr` of the elements of a list, comma separated. -/
def pyReprArr : List JVal → String
  | [] => ""
  | [x] => pyRepr x
  | x :: rest => pyRepr x ++ ", " ++ pyReprArr rest

/-- `repr` of the entries of a dict, comma separated. -/
def pyReprObj : List (String × JVal) → String
  | [] => ""
  | [(k, v)] => "\x27" ++ k ++ "\x27: " ++ pyRepr v
  | (k, v) :: rest => "\x27" ++ k ++ "\x27: " ++ pyRepr v ++ ", " ++ pyReprObj rest

end

/-- Python `str` of a deserialized JSON value, as an f-string renders it:
a string verbatim, anything else through `repr`. -/
def pyStr : JVal → String
  | .str s => s
  | v => pyRepr v

/-- `print(label + str(expr))` for a fallible expression `expr`. -/
def plnE (lbl : String) (x : Except PyError JVal) : Out :=
  match x with
  | .error e => ([], some e)
  | .ok v => ([lbl ++ pyStr v], none)

/-- A `for` loop over already-obtained elements, running `f` on each. -/
def forEach (l : List JVal) (f : JVal → Out) : Out := seqAll (l.map f)

/-- `print_pagination_info` of the script: prints `itemsPerPage`,
`totalResults` and `startIndex` unconditionally, then `previousLink` and
`nextLink` each only when truthy. -/
def print_pagination_info (management_response : JVal) : Out :=
  seqAll [
    plnE "Items per page = " (pyGet management_response "itemsPerPage"),
    plnE "Total Results  = " (pyGet management_response "totalResults"),
    plnE "Start Index    = " (pyGet management_response "startIndex"),
    bindV (pyGet management_response "previousLink") (fun v =>
      if pyTruthy v then
        plnE "Previous Link  = " (pyGet management_response "previousLink")
      else ([], none)),
    bindV (pyGet management_response "nextLink") (fun v =>
      if pyTruthy v then
        plnE "Next Link      = " (pyGet management_response "nextLink")
      else ([], none))
  ]

/-- Body of the `for account in ...` loop of `print_accounts`. -/
def print_account_item (account : JVal) : Out :=
  seqAll [
    plnE "Account ID      = " (pyGet account "id"),
    plnE "Kind            = " (pyGet account "kind"),
    plnE "Self Link       = " (pyGet account "selfLink"),
    plnE "Account Name    = " (pyGet account "name"),
    plnE "Created         = " (pyGet account "created"),
    plnE "Updated         = " (pyGet account "updated"),
    bindV (pyGet account "childLink") (fun child_link =>
      seqAll [
        plnE "Child link href = " (pyGet child_link "href"),
        plnE "Child link type = " (pyGet child_link "type")
      ]),
    pln ""
  ]

/-- `print_accounts` of the script. -/
def print_accounts (accounts_response : JVal) : Out :=
  seqAll [
    pln "------ Account Collection -------",
    print_pagination_info accounts_response,
    pln "",
    bindV (pyGetD accounts_response "items" (.arr [])) (fun items =>
      bindL (pyIter items) (fun elems => forEach elems print_account_item)),
    bindV (pyGet accounts_response "items") (fun items =>
      if pyTruthy items then ([], none) else pln "No accounts found.\n")
  ]

/-- Body of the `for webproperty in ...` loop of `print_webproperties`. -/
def print_webproperty_item (webproperty : JVal) : Out :=
  seqAll [
    plnE "Kind               = " (pyGet webproperty "kind"),
    plnE "Account ID         = " (pyGet webproperty "accountId"),
    plnE "Web Property ID    = " (pyGet webproperty "id"),
    plnE "Internal Web Property ID = " (pyGet webproperty "internalWebPropertyId"),
    plnE "Website URL        = " (pyGet webproperty "websiteUrl"),
    plnE "Created            = " (pyGet webproperty "created"),
    plnE "Updated            = " (pyGet webproperty "updated"),
    plnE "Self Link          = " (pyGet webproperty "selfLink"),
    bindV (pyGet webproperty "parentLink") (fun parent_link =>
      seqAll [
        plnE "Parent link href   = " (pyGet parent_link "href"),
        plnE "Parent link type   = " (pyGet parent_link "type")
      ]),
    bindV (pyGet webproperty "childLink") (fun child_link =>
      seqAll [
        plnE "Child link href    = " (pyGet child_link "href"),
        plnE "Child link type    = " (pyGet child_link "type")
      ]),
    pln ""
  ]

/-- `print_webproperties` of the script. -/
def print_webproperties (webproperties_response : JVal) : Out :=
  seqAll [
    pln "------ Web Properties Collection -------",
    print_pagination_info webproperties_response,
    pln "",
    bindV (pyGetD webproperties_response "items" (.arr [])) (fun items =>
      bindL (pyIter items) (fun elems => forEach elems print_webproperty_item)),
    bindV (pyGet webproperties_response "items") (fun items =>
      if pyTruthy items then ([], none) else pln "No webproperties found.\n")
  ]

/-- Body of the `for profile in ...` loop of `print_profiles`. -/
def print_profile_item (profile : JVal) : Out :=
  seqAll [
    plnE "Kind                      = " (pyGet profile "kind"),
    plnE "Account ID                = " (pyGet profile "accountId"),
    plnE "Web Property ID           = " (pyGet profile "webPropertyId"),
    plnE "Internal Web Property ID = " (pyGet profile "internalWebPropertyId"),
    plnE "Profile ID                = " (pyGet profile "id"),
    plnE "Profile Name              = " (pyGet profile "name"),
    plnE "Currency         = " (pyGet profile "currency"),
    plnE "Timezone         = " (pyGet profile "timezone"),
    plnE "Default Page     = " (pyGet profile "defaultPage"),
    plnE "Exclude Query Parameters        = " (pyGet profile "excludeQueryParameters"),
    plnE "Site Search Category Parameters = " (pyGet profile "siteSearchCategoryParameters"),
    plnE "Site Search Query Parameters    = " (pyGet profile "siteSearchQueryParameters"),
    plnE "Created          = " (pyGet profile "created"),
    plnE "Updated          = " (pyGet profile "updated"),
    plnE "Self Link        = " (pyGet profile "selfLink"),
    bindV (pyGet profile "parentLink") (fun parent_link =>
      seqAll [
        plnE "Parent link href = " (pyGet parent_link "href"),
        plnE "Parent link type = " (pyGet parent_link "type")
      ]),
    bindV (pyGet profile "childLink") (fun child_link =>
      seqAll [
        plnE "Child link href  = " (pyGet child_link "href"),
        plnE "Child link type  = " (pyGet child_link "type")
      ]),
    pln ""
  ]

/-- `print_profiles` of the script. -/
def print_profiles (profiles_response : JVal) : Out :=
  seqAll [
    pln "------ Profiles Collection -------",
    print_pagination_info profiles_response,
    pln "",
    bindV (pyGetD profiles_response "items" (.arr [])) (fun items =>
      bindL (pyIter items) (fun elems => forEach elems print_profile_item)),
    bindV (pyGet profiles_response "items") (fun items =>
      if pyTruthy items then ([], none) else pln "No profiles found.\n")
  ]

/-- Body of the `for goal_step in ...` loop of
`print_url_destination_goal_details`. -/
def print_goal_step (goal_step : JVal) : Out :=
  seqAll [
    plnE "Step Number  = " (pyGet goal_step "number"),
    plnE "Step Name    = " (pyGet goal_step "name"),
    plnE "Step URL     = " (pyGet goal_step "url")
  ]

/-- `print_url_destination_goal_details` of the script. -/
def print_url_destination_goal_details (goal_details : JVal) : Out :=
  seqAll [
    pln "------ Url Destination Goal -------",
    plnE "Goal URL            = " (pyGet goal_details "url"),
    plnE "Case Sensitive      = " (pyGet goal_details "caseSensitive"),
    plnE "Match Type          = " (pyGet goal_details "matchType"),
    plnE "First Step Required = " (pyGet goal_details "firstStepRequired"),
    pln "------ Url Destination Goal Steps -------",
    bindV (pyGetD goal_details "steps" (.arr [])) (fun steps =>
      bindL (pyIter steps) (fun elems => forEach elems print_goal_step)),
    bindV (pyGet goal_details "steps") (fun steps =>
      if pyTruthy steps then ([], none) else pln "No Steps Configured")
  ]

/-- `print_visit_time_on_site_goal_details` of the script. -/
def print_visit_time_on_site_goal_details (goal_details : JVal) : Out :=
  seqAll [
    pln "------ Visit Time On Site Goal -------",
    plnE "Comparison Type  = " (pyGet goal_details "comparisonType"),
    plnE "comparison Value = " (pyGet goal_details "comparisonValue")
  ]

/-- `print_visit_num_pages_goal_details` of the script. -/
def print_visit_num_pages_goal_details (goal_details : JVal) : Out :=
  seqAll [
    pln "------ Visit Num Pages Goal -------",
    plnE "Comparison Type  = " (pyGet goal_details "comparisonType"),
    plnE "comparison Value = " (pyGet goal_details "comparisonValue")
  ]

/-- The test `event_type in ('CATEGORY', 'ACTION', 'LABEL')` of
`print_event_goal_details`: Python equality of the condition type with one
of the three strings. -/
def isEventTextType : JVal → Bool
  | .str s => s == "CATEGORY" || s == "ACTION" || s == "LABEL"
  | _ => false

/-- Body of the `for event_condition in ...` loop of
`print_event_goal_details`. -/
def print_event_condition (event_condition : JVal) : Out :=
  bindV (pyGet event_condition "type") (fun event_type =>
    andThen (pln ("Type             = " ++ pyStr event_type))
      (if isEventTextType event_type then
        seqAll [
          plnE "Match Type       = " (pyGet event_condition "matchType"),
          plnE "Expression       = " (pyGet event_condition "expression")
        ]
      else
        seqAll [
          plnE "Comparison Type  = " (pyGet event_condition "comparisonType"),
          plnE "Comparison Value = " (pyGet event_condition "comparisonValue")
        ]))

/-- `print_event_goal_details` of the script. -/
def print_event_goal_details (goal_details : JVal) : Out :=
  seqAll [
    pln "------ Event Goal -------",
    plnE "Use Event Value  = " (pyGet goal_details "useEventValue"),
    bindV (pyGetD goal_details "eventConditions" (.arr [])) (fun conds =>
      bindL (pyIter conds) (fun elems => forEach elems print_event_condition))
  ]

/-- The `if goal.get(...) / elif ...` chain of `print_goals` that picks the
detail sub-formatter for one goal. -/
def goal_detail_dispatch (goal : JVal) : Out :=
  bindV (pyGet goal "urlDestinationDetails") (fun url =>
    if pyTruthy url then
      bindV (pyGet goal "urlDestinationDetails") print_url_destination_goal_details
    else
      bindV (pyGet goal "visitTimeOnSiteDetails") (fun vt =>
        if pyTruthy vt then
          bindV (pyGet goal "visitTimeOnSiteDetails") print_visit_time_on_site_goal_details
        else
          bindV (pyGet goal "visitNumPagesDetails") (fun vp =>
            if pyTruthy vp then
              bindV (pyGet goal "visitNumPagesDetails") print_visit_num_pages_goal_details
            else
              bindV (pyGet goal "eventDetails") (fun ev =>
                if pyTruthy ev then
                  bindV (pyGet goal "eventDetails") print_event_goal_details
                else ([], none)))))

/-- Body of the `for goal in ...` loop of `print_goals`. -/
def print_goal_item (goal : JVal) : Out :=
  seqAll [
    plnE "Goal ID     = " (pyGet goal "id"),
    plnE "Kind        = " (pyGet goal "kind"),
    plnE "Self Link        = " (pyGet goal "selfLink"),
    plnE "Account ID               = " (pyGet goal "accountId"),
    plnE "Web Property ID          = " (pyGet goal "webPropertyId"),
    plnE "Internal Web Property ID = " (pyGet goal "internalWebPropertyId"),
    plnE "Profile ID               = " (pyGet goal "profileId"),
    plnE "Goal Name   = " (pyGet goal "name"),
    plnE "Goal Value  = " (pyGet goal "value"),
    plnE "Goal Active = " (pyGet goal "active"),
    plnE "Goal Type   = " (pyGet goal "type"),
    plnE "Created     = " (pyGet goal "created"),
    plnE "Updated     = " (pyGet goal "updated"),
    bindV (pyGet goal "parentLink") (fun parent_link =>
      seqAll [
        plnE "Parent link href = " (pyGet parent_link "href"),
        plnE "Parent link type = " (pyGet parent_link "type")
      ]),
    goal_detail_dispatch goal,
    pln ""
  ]

/-- `print_goals` of the script. -/
def print_goals (goals_response : JVal) : Out :=
  seqAll [
    pln "------ Goals Collection -------",
    print_pagination_info goals_response,
    pln "",
    bindV (pyGetD goals_response "items" (.arr [])) (fun items =>
      bindL (pyIter items) (fun elems => forEach elems print_goal_item)),
    bindV (pyGet goals_response "items") (fun items =>
      if pyTruthy items then ([], none) else pln "No goals found.\n")
  ]

/-- Body of the `for segment in ...` loop of `print_segments`. -/
def print_segment_item (segment : JVal) : Out :=
  seqAll [
    plnE "Segment ID = " (pyGet segment "id"),
    plnE "Kind       = " (pyGet segment "kind"),
    plnE "Self Link  = " (pyGet segment "selfLink"),
    plnE "Name       = " (pyGet segment "name"),
    plnE "Definition = " (pyGet segment "definition"),
    plnE "Created    = " (pyGet segment "created"),
    plnE "Updated    = " (pyGet segment "updated"),
    pln ""
  ]

/-- `print_segments` of the script.  Note: unlike the other four collection
formatters it has no `No segments found.` sentinel. -/
def print_segments (segments_response : JVal) : Out :=
  seqAll [
    pln "------ Segments Collection -------",
    print_pagination_info segments_response,
    pln "",
    bindV (pyGetD segments_response "items" (.arr [])) (fun items =>
      bindL (pyIter items) (fun elems => forEach elems print_segment_item))
  ]

/-- The Google API service as the script uses it: one response (or raised
exception) per `list().execute()` call, the scoped calls taking the ids the
script passes. -/
structure Service where
  accountsResponse : Except PyError JVal
  webpropertiesResponse : JVal → Except PyError JVal
  profilesResponse : JVal → JVal → Except PyError JVal
  goalsResponse : JVal → JVal → JVal → Except PyError JVal
  segmentsResponse : Except PyError JVal

/-- The goals fetch-and-print step of `traverse_hiearchy`. -/
def goals_step (service : Service) (firstAccountId firstWebpropertyId firstProfileId : JVal) : Out :=
  bindV (service.goalsResponse firstAccountId firstWebpropertyId firstProfileId) print_goals

/-- The `if profiles.get('items'):` block of `traverse_hiearchy`: descend
to goals with the id of profile 0 when the profiles items are truthy. -/
def after_profiles (service : Service) (firstAccountId firstWebpropertyId profiles : JVal) : Out :=
  bindV (pyGet profiles "items") (fun items =>
    if pyTruthy items then
      bindV (pyGet profiles "items") (fun items2 =>
        bindV (pyIndex0 items2) (fun it =>
          bindV (pyGet it "id") (fun firstProfileId =>
            goals_step service firstAccountId firstWebpropertyId firstProfileId)))
    else ([], none))

/-- The profiles fetch-and-print step of `traverse_hiearchy`, followed by
its descend-to-goals block. -/
def profiles_step (service : Service) (firstAccountId firstWebpropertyId : JVal) : Out :=
  bindV (service.profilesResponse firstAccountId firstWebpropertyId) (fun profiles =>
    andThen (print_profiles profiles)
      (after_profiles service firstAccountId firstWebpropertyId profiles))

/-- The `if webproperties.get('items'):` block of `traverse_hiearchy`:
descend to profiles with the id of web property 0 when the web property
items are truthy. -/
def after_webproperties (service : Service) (firstAccountId webproperties : JVal) : Out :=
  bindV (pyGet webproperties "items") (fun items =>
    if pyTruthy items then
      bindV (pyGet webproperties "items") (fun items2 =>
        bindV (pyIndex0 items2) (fun it =>
          bindV (pyGet it "id") (fun firstWebpropertyId =>
            profiles_step service firstAccountId firstWebpropertyId)))
    else ([], none))

/-- The web properties fetch-and-print step of `traverse_hiearchy`,
followed by its descend-to-profiles block. -/
def webproperties_step (service : Service) (firstAccountId : JVal) : Out :=
  bindV (service.webpropertiesResponse firstAccountId) (fun webproperties =>
    andThen (print_webproperties webproperties)
      (after_webproperties service firstAccountId webproperties))

/-- The `if accounts.get('items'):` block of `traverse_hiearchy`: descend
to web properties with the id of account 0 when the account items are
truthy. -/
def after_accounts (service : Service) (accounts : JVal) : Out :=
  bindV (pyGet accounts "items") (fun items =>
    if pyTruthy items then
      bindV (pyGet accounts "items") (fun items2 =>
        bindV (pyIndex0 items2) (fun it =>
          bindV (pyGet it "id") (fun firstAccountId =>
            webproperties_step service firstAccountId)))
    else ([], none))

/-- `traverse_hiearchy` of the script (the script's own spelling): print
accounts, conditionally walk down the hierarchy, then unconditionally
fetch and print segments. -/
def traverse_hiearchy (service : Service) : Out :=
  andThen
    (bindV service.accountsResponse (fun accounts =>
      andThen (print_accounts accounts) (after_accounts service accounts)))
    (bindV service.segmentsResponse print_segments)

/-- `main` of the script (Lean reserves the name `main`), without the authentication preamble: run
`traverse_hiearchy` and catch `TypeError`, `HttpError` and
`AccessTokenRefreshError`, each with its single diagnostic line; other
exceptions propagate. -/
def script_main (service : Service) : Out :=
  match traverse_hiearchy service with
  | (out, none) => (out, none)
  | (out, some (.typeError m)) =>
      (out ++ ["There was an error in constructing your query : " ++ m], none)
  | (out, some (.httpError status reason)) =>
      (out ++ ["Arg, there was an API error : " ++ toString status ++ " : " ++ reason], none)
  | (out, some .accessTokenRefreshError) =>
      (out ++ ["The credentials have been revoked or expired, please re-run" ++
        "the application to re-authorize"], none)
  | (out, some e) => (out, some e)

/-- Is the value a dict? -/
def isObj : JVal → Bool
  | .obj _ => true
  | _ => false

/-- Is the value a list all of whose elements pass `check`? -/
def isArrAll (check : JVal → Bool) : JVal → Bool
  | .arr l => l.all check
  | _ => false

/-- The value is a dict carrying field `k`, itself a dict. -/
def hasObjField (k : String) : JVal → Bool
  | .obj fs => isObj ((List.lookup k fs).getD .null)
  | _ => false

/-- The value is a dict whose field `k` is absent or a list of dicts (the
shape of `steps` and `eventConditions`). -/
def wfObjArrField (k : String) : JVal → Bool
  | .obj fs => Option.all (isArrAll isObj) (List.lookup k fs)
  | _ => false

/-- Shape of a URL destination detail record as the data model lists it:
a dict whose `steps`, when present, is a list of dicts. -/
def wfUrlDetails (v : JVal) : Bool := isObj v && wfObjArrField "steps" v

/-- Shape of an event detail record: a dict whose `eventConditions`, when
present, is a list of dicts. -/
def wfEventDetails (v : JVal) : Bool := isObj v && wfObjArrField "eventConditions" v

/-- The value is a dict whose field `k`, when present and truthy, passes
`check`. -/
def wfDetailField (k : String) (check : JVal → Bool) : JVal → Bool
  | .obj fs => Option.all (fun v => !pyTruthy v || check v) (List.lookup k fs)
  | _ => false

/-- An account item the formatter can fully render: a dict whose
`childLink` is present and a dict.  Every other field may be missing. -/
def wfAccountItem (v : JVal) : Bool := hasObjField "childLink" v

/-- A web property or profile item the formatter can fully render: a dict
whose `parentLink` and `childLink` are present and dicts. -/
def wfLinkedItem (v : JVal) : Bool := hasObjField "parentLink" v && hasObjField "childLink" v

/-- A goal item the formatter can fully render: a dict whose `parentLink`
is present and a dict, and whose four optional detail fields, when present
and truthy, have the shapes the data model lists for them. -/
def wfGoalItem (v : JVal) : Bool :=
  hasObjField "parentLink" v
  && wfDetailField "urlDestinationDetails" wfUrlDetails v
  && wfDetailField "visitTimeOnSiteDetails" isObj v
  && wfDetailField "visitNumPagesDetails" isObj v
  && wfDetailField "eventDetails" wfEventDetails v

/-- A collection response whose `items`, when present, is a list of items
passing `check` (and which is itself a dict). -/
def wfItems (check : JVal → Bool) : JVal → Bool
  | .obj fs => Option.all (isArrAll check) (List.lookup "items" fs)
  | _ => false

/-- The four optional goal detail fields in the priority order of the
`if/elif` chain of `print_goals`. -/
def detailKeys : List String :=
  ["urlDestinationDetails", "visitTimeOnSiteDetails", "visitNumPagesDetails", "eventDetails"]

/-- Modelled from the spec's words: the first of the four optional detail
fields, in priority order, that is present with a truthy value. -/
def firstTruthyDetail (fs : List (String × JVal)) : Option String :=
  detailKeys.find? (fun k => pyTruthy ((List.lookup k fs).getD .null))

/-- Modelled from the spec's words: the detail section the spec promises
for a goal with fields `fs` — the sub-formatter of the first truthy detail
field in priority order, or nothing. -/
def specDetailSection (fs : List (String × JVal)) : Out :=
  match firstTruthyDetail fs with
  | none => ([], none)
  | some k =>
    let v := (List.lookup k fs).getD .null
    if k == "urlDestinationDetails" then print_url_destination_goal_details v
    else if k == "visitTimeOnSiteDetails" then print_visit_time_on_site_goal_details v
    else if k == "visitNumPagesDetails" then print_visit_num_pages_goal_details v
    else print_event_goal_details v

/-- Which of the exceptions does `main` of the script catch? -/
def recognized : PyError → Bool
  | .typeError _ => true
  | .httpError _ _ => true
  | .accessTokenRefreshError => true
  | _ => false

/-- The single diagnostic line `main` of the script prints for each caught
exception. -/
def diagMsg : PyError → String
  | .typeError m => "There was an error in constructing your query : " ++ m
  | .httpError status reason =>
      "Arg, there was an API error : " ++ toString status ++ " : " ++ reason
  | .accessTokenRefreshError =>
      "The credentials have been revoked or expired, please re-run" ++
        "the application to re-authorize"
  | _ => ""

/-- A service whose every call yields `None`. -/
def trivialService : Service :=
  { accountsResponse := .ok .null,
    webpropertiesResponse := fun _ => .ok .null,
    profilesResponse := fun _ _ => .ok .null,
    goalsResponse := fun _ _ _ => .ok .null,
    segmentsResponse := .ok .null }

/-- A service with one account whose web properties call raises a 403
`HttpError`. -/
def failingService : Service :=
  { accountsResponse :=
      .ok (.obj [("items", .arr [.obj [("id", .str "12345"), ("childLink", .obj [])]])]),
    webpropertiesResponse := fun _ => .error (.httpError 403 "insufficient permission"),
    profilesResponse := fun _ _ => .ok .null,
    goalsResponse := fun _ _ _ => .ok .null,
    segmentsResponse := .ok .null }

/-- A service with an empty accounts collection and an empty segments
collection. -/
def emptyAccountsService : Service :=
  { accountsResponse := .ok (.obj [("items", .arr [])]),
    webpropertiesResponse := fun _ => .ok .null,
    profilesResponse := fun _ _ => .ok .null,
    goalsResponse := fun _ _ _ => .ok .null,
    segmentsResponse := .ok (.obj []) }

theorem andThen_of_none {a : Out} (h : a.2 = none) (b : Out) :
    andThen a b = (a.1 ++ b.1, b.2) := by
  unfold andThen
  rw [h]

theorem andThen_of_some {a : Out} {e : PyError} (h : a.2 = some e) (b : Out) :
    andThen a b = a := by
  unfold andThen
  rw [h]

theorem andThen_unit (a : Out) : andThen a ([], none) = a := by
  obtain ⟨out, err⟩ := a
  cases err <;> simp [andThen]

theorem andThen_snd_none {a b : Out} :
    (andThen a b).2 = none ↔ a.2 = none ∧ b.2 = none := by
  obtain ⟨out, err⟩ := a
  cases err <;> simp [andThen]

theorem seqAll_snd_none {l : List Out} (h : ∀ a ∈ l, a.2 = none) :
    (seqAll l).2 = none := by
  induction l with
  | nil => rfl
  | cons a rest ih =>
    simp only [seqAll]
    rw [andThen_snd_none]
    exact ⟨h a (by simp), ih (fun x hx => h x (by simp [hx]))⟩

theorem forEach_snd_none {l : List JVal} {f : JVal → Out}
    (h : ∀ v ∈ l, (f v).2 = none) : (forEach l f).2 = none := by
  unfold forEach
  apply seqAll_snd_none
  intro a ha
  obtain ⟨v, hv, rfl⟩ := List.mem_map.mp ha
  exact h v hv

theorem pagination_obj (fs : List (String × JVal)) :
    print_pagination_info (.obj fs) =
      (["Items per page = " ++ pyStr ((List.lookup "itemsPerPage" fs).getD .null),
        "Total Results  = " ++ pyStr ((List.lookup "totalResults" fs).getD .null),
        "Start Index    = " ++ pyStr ((List.lookup "startIndex" fs).getD .null)]
       ++ (if pyTruthy ((List.lookup "previousLink" fs).getD .null) then
             ["Previous Link  = " ++ pyStr ((List.lookup "previousLink" fs).getD .null)]
           else [])
       ++ (if pyTruthy ((List.lookup "nextLink" fs).getD .null) then
             ["Next Link      = " ++ pyStr ((List.lookup "nextLink" fs).getD .null)]
           else []), none) := by
  by_cases h1 : pyTruthy ((List.lookup "previousLink" fs).getD .null) <;>
  by_cases h2 : pyTruthy ((List.lookup "nextLink" fs).getD .null) <;>
  simp [print_pagination_info, seqAll, andThen, bindV, plnE, pyGet, h1, h2]

theorem pagination_snd_none (fs : List (String × JVal)) :
    (print_pagination_info (.obj fs)).2 = none := by
  rw [pagination_obj]

theorem if_pln_snd_none (c : Bool) (s : String) :
    (if c then (([] : List String), (none : Option PyError)) else pln s).2 = none := by
  cases c <;> simp [pln]

theorem ite_snd_none {c : Prop} [Decidable c] {a b : Out}
    (ha : a.2 = none) (hb : b.2 = none) : (if c then a else b).2 = none := by
  split
  · exact ha
  · exact hb

theorem hasObjField_isObj {k : String} {v : JVal} (h : hasObjField k v = true) :
    ∃ fs, v = .obj fs := by
  cases v <;> simp [hasObjField] at h
  exact ⟨_, rfl⟩

theorem hasObjField_elim {k : String} {fs : List (String × JVal)}
    (h : hasObjField k (.obj fs) = true) :
    ∃ g, List.lookup k fs = some (.obj g) := by
  simp only [hasObjField] at h
  rcases hc : List.lookup k fs with _ | c
  · rw [hc] at h
    simp [isObj] at h
  · rw [hc] at h
    cases c <;> simp [isObj] at h
    exact ⟨_, rfl⟩

theorem print_account_item_snd_none {v : JVal} (h : wfAccountItem v = true) :
    (print_account_item v).2 = none := by
  unfold wfAccountItem at h
  obtain ⟨fs, rfl⟩ := hasObjField_isObj h
  obtain ⟨g, hg⟩ := hasObjField_elim h
  simp [print_account_item, seqAll, andThen_snd_none, plnE, pyGet, bindV, pln, hg]

theorem print_webproperty_item_snd_none {v : JVal} (h : wfLinkedItem v = true) :
    (print_webproperty_item v).2 = none := by
  unfold wfLinkedItem at h
  simp only [Bool.and_eq_true] at h
  obtain ⟨hp, hc⟩ := h
  obtain ⟨fs, rfl⟩ := hasObjField_isObj hp
  obtain ⟨g1, hg1⟩ := hasObjField_elim hp
  obtain ⟨g2, hg2⟩ := hasObjField_elim hc
  simp [print_webproperty_item, seqAll, andThen_snd_none, plnE, pyGet, bindV, pln, hg1, hg2]

theorem print_profile_item_snd_none {v : JVal} (h : wfLinkedItem v = true) :
    (print_profile_item v).2 = none := by
  unfold wfLinkedItem at h
  simp only [Bool.and_eq_true] at h
  obtain ⟨hp, hc⟩ := h
  obtain ⟨fs, rfl⟩ := hasObjField_isObj hp
  obtain ⟨g1, hg1⟩ := hasObjField_elim hp
  obtain ⟨g2, hg2⟩ := hasObjField_elim hc
  simp [print_profile_item, seqAll, andThen_snd_none, plnE, pyGet, bindV, pln, hg1, hg2]

theorem print_goal_step_snd_none {v : JVal} (h : isObj v = true) :
    (print_goal_step v).2 = none := by
  cases v <;> simp [isObj] at h
  simp [print_goal_step, seqAll, andThen_snd_none, plnE, pyGet]

theorem print_visit_time_on_site_goal_details_snd_none {v : JVal} (h : isObj v = true) :
    (print_visit_time_on_site_goal_details v).2 = none := by
  cases v <;> simp [isObj] at h
  simp [print_visit_time_on_site_goal_details, seqAll, andThen_snd_none, plnE, pyGet, pln]

theorem print_visit_num_pages_goal_details_snd_none {v : JVal} (h : isObj v = true) :
    (print_visit_num_pages_goal_details v).2 = none := by
  cases v <;> simp [isObj] at h
  simp [print_visit_num_pages_goal_details, seqAll, andThen_snd_none, plnE, pyGet, pln]

theorem print_url_destination_goal_details_snd_none {v : JVal} (h : wfUrlDetails v = true) :
    (print_url_destination_goal_details v).2 = none := by
  unfold wfUrlDetails at h
  simp only [Bool.and_eq_true] at h
  obtain ⟨h1, h2⟩ := h
  cases v <;> simp [isObj] at h1
  case obj fs =>
  simp only [wfObjArrField] at h2
  rcases hs : List.lookup "steps" fs with _ | s
  · rw [hs] at h2
    simp [print_url_destination_goal_details, seqAll, andThen_snd_none, plnE, pyGet,
      pyGetD, bindV, bindL, pyIter, forEach, pln, pyTruthy, hs]
  · rw [hs] at h2
    simp only [Option.all] at h2
    cases s <;> simp [isArrAll] at h2
    case arr l =>
    have hf : (forEach l print_goal_step).2 = none := by
      apply forEach_snd_none
      intro x hx
      exact print_goal_step_snd_none (h2 x hx)
    have hsen : ((if pyTruthy (JVal.arr l) = true then (([] : List String), (none : Option PyError))
        else ((["No Steps Configured"], none) : Out))).2 = none := ite_snd_none rfl rfl
    simp [print_url_destination_goal_details, seqAll, andThen_snd_none, plnE, pyGet,
      pyGetD, bindV, bindL, pyIter, pln, hs, hf, hsen]

theorem print_event_condition_snd_none {v : JVal} (h : isObj v = true) :
    (print_event_condition v).2 = none := by
  cases v <;> simp [isObj] at h
  case obj fs =>
  simp only [print_event_condition, bindV, pyGet]
  rw [andThen_snd_none]
  refine ⟨rfl, ?_⟩
  cases hb : isEventTextType ((List.lookup "type" fs).getD .null) <;>
    simp [hb, seqAll, andThen_snd_none, plnE, pyGet, pln]

theorem print_event_goal_details_snd_none {v : JVal} (h : wfEventDetails v = true) :
    (print_event_goal_details v).2 = none := by
  unfold wfEventDetails at h
  simp only [Bool.and_eq_true] at h
  obtain ⟨h1, h2⟩ := h
  cases v <;> simp [isObj] at h1
  case obj fs =>
  simp only [wfObjArrField] at h2
  rcases hs : List.lookup "eventConditions" fs with _ | s
  · rw [hs] at h2
    simp [print_event_goal_details, seqAll, andThen_snd_none, plnE, pyGet, pyGetD,
      bindV, bindL, pyIter, forEach, pln, hs]
  · rw [hs] at h2
    simp only [Option.all] at h2
    cases s <;> simp [isArrAll] at h2
    case arr l =>
    have hf : (forEach l print_event_condition).2 = none := by
      apply forEach_snd_none
      intro x hx
      exact print_event_condition_snd_none (h2 x hx)
    simp [print_event_goal_details, seqAll, andThen_snd_none, plnE, pyGet, pyGetD,
      bindV, bindL, pyIter, pln, hs, hf]

theorem wfDetailField_truthy {k : String} {check : JVal → Bool} {fs : List (String × JVal)}
    (h : wfDetailField k check (.obj fs) = true)
    (ht : pyTruthy ((List.lookup k fs).getD .null) = true) :
    check ((List.lookup k fs).getD .null) = true := by
  simp only [wfDetailField] at h
  revert h ht
  rcases List.lookup k fs with _ | w
  · intro h ht
    simp [Option.getD, pyTruthy] at ht
  · intro h ht
    simp only [Option.all] at h
    simp only [Option.getD] at ht ⊢
    rcases (show pyTruthy w = false ∨ check w = true by simpa using h) with hnt | hc
    · simp [ht] at hnt
    · exact hc

theorem goal_detail_dispatch_snd_none {fs : List (String × JVal)}
    (h1 : wfDetailField "urlDestinationDetails" wfUrlDetails (.obj fs) = true)
    (h2 : wfDetailField "visitTimeOnSiteDetails" isObj (.obj fs) = true)
    (h3 : wfDetailField "visitNumPagesDetails" isObj (.obj fs) = true)
    (h4 : wfDetailField "eventDetails" wfEventDetails (.obj fs) = true) :
    (goal_detail_dispatch (.obj fs)).2 = none := by
  simp only [goal_detail_dispatch, bindV, pyGet]
  by_cases hu : pyTruthy ((List.lookup "urlDestinationDetails" fs).getD .null) = true
  · rw [if_pos hu]
    exact print_url_destination_goal_details_snd_none (wfDetailField_truthy h1 hu)
  · rw [if_neg hu]
    by_cases hv : pyTruthy ((List.lookup "visitTimeOnSiteDetails" fs).getD .null) = true
    · rw [if_pos hv]
      exact print_visit_time_on_site_goal_details_snd_none (wfDetailField_truthy h2 hv)
    · rw [if_neg hv]
      by_cases hw : pyTruthy ((List.lookup "visitNumPagesDetails" fs).getD .null) = true
      · rw [if_pos hw]
        exact print_visit_num_pages_goal_details_snd_none (wfDetailField_truthy h3 hw)
      · rw [if_neg hw]
        by_cases he : pyTruthy ((List.lookup "eventDetails" fs).getD .null) = true
        · rw [if_pos he]
          exact print_event_goal_details_snd_none (wfDetailField_truthy h4 he)
        · rw [if_neg he]

theorem print_goal_item_snd_none {v : JVal} (h : wfGoalItem v = true) :
    (print_goal_item v).2 = none := by
  unfold wfGoalItem at h
  simp only [Bool.and_eq_true] at h
  obtain ⟨⟨⟨⟨hp, hu⟩, hvt⟩, hvp⟩, he⟩ := h
  obtain ⟨fs, rfl⟩ := hasObjField_isObj hp
  obtain ⟨g, hg⟩ := hasObjField_elim hp
  have hd := goal_detail_dispatch_snd_none hu hvt hvp he
  simp [print_goal_item, seqAll, andThen_snd_none, plnE, pyGet, bindV, pln, hg, hd]

theorem print_segment_item_snd_none {v : JVal} (h : isObj v = true) :
    (print_segment_item v).2 = none := by
  cases v <;> simp [isObj] at h
  simp [print_segment_item, seqAll, andThen_snd_none, plnE, pyGet, pln]

theorem wfItems_isObj {check : JVal → Bool} {v : JVal} (h : wfItems check v = true) :
    ∃ fs, v = .obj fs := by
  cases v <;> simp [wfItems] at h
  exact ⟨_, rfl⟩

theorem items_loop_snd_none {fs : List (String × JVal)} {check : JVal → Bool} {itemf : JVal → Out}
    (hitem : ∀ v, check v = true → (itemf v).2 = none)
    (h : wfItems check (.obj fs) = true) :
    (bindV (pyGetD (.obj fs) "items" (.arr [])) (fun items =>
      bindL (pyIter items) (fun elems => forEach elems itemf))).2 = none := by
  simp only [wfItems] at h
  revert h
  rcases hl : List.lookup "items" fs with _ | it
  · intro h
    simp [pyGetD, Option.getD, bindV, bindL, pyIter, forEach, seqAll, hl]
  · intro h
    simp only [Option.all] at h
    cases it <;> simp [isArrAll] at h
    case arr l =>
    have hf : (forEach l itemf).2 = none :=
      forEach_snd_none (fun x hx => hitem x (h x hx))
    simp [pyGetD, Option.getD, bindV, bindL, pyIter, hl, hf]

theorem sentinel_snd_none (fs : List (String × JVal)) (s : String) :
    (bindV (pyGet (.obj fs) "items") (fun items =>
      if pyTruthy items then (([] : List String), (none : Option PyError))
      else pln s)).2 = none := by
  simp [bindV, pyGet, if_pln_snd_none]

theorem print_accounts_snd_none {v : JVal} (h : wfItems wfAccountItem v = true) :
    (print_accounts v).2 = none := by
  obtain ⟨fs, rfl⟩ := wfItems_isObj h
  have hloop := items_loop_snd_none (fun x hx => print_account_item_snd_none hx) h
  have hsen := sentinel_snd_none fs "No accounts found.\n"
  simp only [print_accounts, seqAll, andThen_snd_none]
  exact ⟨rfl, pagination_snd_none fs, rfl, hloop, hsen, trivial⟩

theorem print_webproperties_snd_none {v : JVal} (h : wfItems wfLinkedItem v = true) :
    (print_webproperties v).2 = none := by
  obtain ⟨fs, rfl⟩ := wfItems_isObj h
  have hloop := items_loop_snd_none (fun x hx => print_webproperty_item_snd_none hx) h
  have hsen := sentinel_snd_none fs "No webproperties found.\n"
  simp only [print_webproperties, seqAll, andThen_snd_none]
  exact ⟨rfl, pagination_snd_none fs, rfl, hloop, hsen, trivial⟩

theorem print_profiles_snd_none {v : JVal} (h : wfItems wfLinkedItem v = true) :
    (print_profiles v).2 = none := by
  obtain ⟨fs, rfl⟩ := wfItems_isObj h
  have hloop := items_loop_snd_none (fun x hx => print_profile_item_snd_none hx) h
  have hsen := sentinel_snd_none fs "No profiles found.\n"
  simp only [print_profiles, seqAll, andThen_snd_none]
  exact ⟨rfl, pagination_snd_none fs, rfl, hloop, hsen, trivial⟩

theorem print_goals_snd_none {v : JVal} (h : wfItems wfGoalItem v = true) :
    (print_goals v).2 = none := by
  obtain ⟨fs, rfl⟩ := wfItems_isObj h
  have hloop := items_loop_snd_none (fun x hx => print_goal_item_snd_none hx) h
  have hsen := sentinel_snd_none fs "No goals found.\n"
  simp only [print_goals, seqAll, andThen_snd_none]
  exact ⟨rfl, pagination_snd_none fs, rfl, hloop, hsen, trivial⟩

theorem print_segments_snd_none {v : JVal} (h : wfItems isObj v = true) :
    (print_segments v).2 = none := by
  obtain ⟨fs, rfl⟩ := wfItems_isObj h
  have hloop := items_loop_snd_none (fun x hx => print_segment_item_snd_none hx) h
  simp only [print_segments, seqAll, andThen_snd_none]
  exact ⟨rfl, pagination_snd_none fs, rfl, hloop, trivial⟩

/-- C1 (counterexample): contrary to the claim, the account formatter does
not tolerate a missing `childLink` sub-object.  On a response holding one
account item without `childLink`, `account.get('childLink')` yields `None`
and the following `child_link.get('href')` raises an `AttributeError`. -/
theorem print_accounts_missing_childLink_raises :
    (print_accounts (.obj [("items", .arr [.obj []])])).2 = some .attributeError := rfl

/-- C1 (amended): each of the five formatters completes normally on items
missing any of the scalar fields, which render as `None`, provided every
item is a dict, `childLink` is present as a dict on account, web property
and profile items, `parentLink` is present as a dict on web property,
profile and goal items, and the goal detail fields that are present and
truthy have their data-model shapes (a missing `childLink`/`parentLink`
instead raises, per the counterexample).  The last conjunct shows a
field-less account item rendering every missing field as `None`. -/
theorem formatters_tolerate_missing_fields
    (accR wpR prR gR sgR : JVal)
    (h1 : wfItems wfAccountItem accR = true)
    (h2 : wfItems wfLinkedItem wpR = true)
    (h3 : wfItems wfLinkedItem prR = true)
    (h4 : wfItems wfGoalItem gR = true)
    (h5 : wfItems isObj sgR = true) :
    (print_accounts accR).2 = none ∧
    (print_webproperties wpR).2 = none ∧
    (print_profiles prR).2 = none ∧
    (print_goals gR).2 = none ∧
    (print_segments sgR).2 = none ∧
    print_account_item (.obj [("childLink", .obj [])]) =
      (["Account ID      = None", "Kind            = None", "Self Link       = None",
        "Account Name    = None", "Created         = None", "Updated         = None",
        "Child link href = None", "Child link type = None", ""], none) :=
  ⟨print_accounts_snd_none h1, print_webproperties_snd_none h2, print_profiles_snd_none h3,
   print_goals_snd_none h4, print_segments_snd_none h5, rfl⟩

/-- Witness for C1 (amended) at concrete partial records. -/
theorem formatters_tolerate_missing_fields_witness :
    (print_accounts (.obj [("items", .arr [.obj [("childLink", .obj [])]])])).2 = none ∧
    (print_webproperties
      (.obj [("items", .arr [.obj [("parentLink", .obj []), ("childLink", .obj [])]])])).2 = none ∧
    (print_profiles
      (.obj [("items", .arr [.obj [("parentLink", .obj []), ("childLink", .obj [])]])])).2 = none ∧
    (print_goals
      (.obj [("items", .arr [.obj [("parentLink", .obj []),
        ("urlDestinationDetails", .obj [("steps", .arr [.obj []])])]])])).2 = none ∧
    (print_segments (.obj [("items", .arr [.obj []])])).2 = none ∧
    print_account_item (.obj [("childLink", .obj [])]) =
      (["Account ID      = None", "Kind            = None", "Self Link       = None",
        "Account Name    = None", "Created         = None", "Updated         = None",
        "Child link href = None", "Child link type = None", ""], none) :=
  formatters_tolerate_missing_fields _ _ _ _ _ rfl rfl rfl rfl rfl

/-- C2 (counterexample): on an empty segments collection the segments
formatter prints no sentinel line at all — in particular not
`No segments found.` — unlike the other four collection formatters. -/
theorem print_segments_empty_no_sentinel :
    print_segments (.obj [("items", .arr [])]) =
      (["------ Segments Collection -------", "Items per page = None",
        "Total Results  = None", "Start Index    = None", ""], none) ∧
    "No segments found.\n" ∉ (print_segments (.obj [("items", .arr [])])).1 := by
  refine ⟨rfl, ?_⟩
  decide

/-- C2 (amended): for every collection response whose item list is empty
or absent, the accounts, web properties, profiles and goals formatters
print their header, the pagination block, a blank line and then exactly
one `No <entities> found.` sentinel, and no per-item lines; the segments
formatter prints only its header, pagination block and blank line, with no
sentinel. -/
theorem empty_collections_print_sentinels (fs : List (String × JVal))
    (h : List.lookup "items" fs = none ∨ List.lookup "items" fs = some (.arr [])) :
    print_accounts (.obj fs) =
      ("------ Account Collection -------" :: (print_pagination_info (.obj fs)).1 ++
        ["", "No accounts found.\n"], none) ∧
    print_webproperties (.obj fs) =
      ("------ Web Properties Collection -------" :: (print_pagination_info (.obj fs)).1 ++
        ["", "No webproperties found.\n"], none) ∧
    print_profiles (.obj fs) =
      ("------ Profiles Collection -------" :: (print_pagination_info (.obj fs)).1 ++
        ["", "No profiles found.\n"], none) ∧
    print_goals (.obj fs) =
      ("------ Goals Collection -------" :: (print_pagination_info (.obj fs)).1 ++
        ["", "No goals found.\n"], none) ∧
    print_segments (.obj fs) =
      ("------ Segments Collection -------" :: (print_pagination_info (.obj fs)).1 ++
        [""], none) := by
  refine ⟨?_, ?_, ?_, ?_, ?_⟩ <;> rcases h with h | h <;>
    simp [print_accounts, print_webproperties, print_profiles, print_goals, print_segments,
      seqAll, andThen, bindV, bindL, pyGet, pyGetD, Option.getD, pyIter, forEach, pyTruthy,
      pln, pagination_obj, h]

/-- Witness for C2 (amended) at a concrete empty collection response. -/
theorem empty_collections_print_sentinels_witness :
    print_accounts (.obj [("items", .arr [])]) =
      ("------ Account Collection -------" ::
        (print_pagination_info (.obj [("items", JVal.arr [])])).1 ++
        ["", "No accounts found.\n"], none) ∧
    print_webproperties (.obj [("items", .arr [])]) =
      ("------ Web Properties Collection -------" ::
        (print_pagination_info (.obj [("items", JVal.arr [])])).1 ++
        ["", "No webproperties found.\n"], none) ∧
    print_profiles (.obj [("items", .arr [])]) =
      ("------ Profiles Collection -------" ::
        (print_pagination_info (.obj [("items", JVal.arr [])])).1 ++
        ["", "No profiles found.\n"], none) ∧
    print_goals (.obj [("items", .arr [])]) =
      ("------ Goals Collection -------" ::
        (print_pagination_info (.obj [("items", JVal.arr [])])).1 ++
        ["", "No goals found.\n"], none) ∧
    print_segments (.obj [("items", .arr [])]) =
      ("------ Segments Collection -------" ::
        (print_pagination_info (.obj [("items", JVal.arr [])])).1 ++ [""], none) :=
  empty_collections_print_sentinels [("items", .arr [])] (Or.inr rfl)

/-- C3: for every goal (a dict), the detail dispatch of `print_goals` is
exactly the sub-formatter of the first truthy detail field in the fixed
priority order urlDestination → visitTimeOnSite → visitNumPages → event,
applied to that field, and no detail section at all when none is truthy —
so zero or one sub-formatter runs, never more, even if several detail
fields are simultaneously present. -/
theorem goal_detail_dispatch_first_truthy (fs : List (String × JVal)) :
    goal_detail_dispatch (.obj fs) = specDetailSection fs := by
  by_cases h1 : pyTruthy ((List.lookup "urlDestinationDetails" fs).getD .null) = true <;>
  by_cases h2 : pyTruthy ((List.lookup "visitTimeOnSiteDetails" fs).getD .null) = true <;>
  by_cases h3 : pyTruthy ((List.lookup "visitNumPagesDetails" fs).getD .null) = true <;>
  by_cases h4 : pyTruthy ((List.lookup "eventDetails" fs).getD .null) = true <;>
  simp [goal_detail_dispatch, specDetailSection, firstTruthyDetail, detailKeys,
    bindV, pyGet, List.find?, h1, h2, h3, h4]

theorem after_accounts_falsy {service : Service} {fs : List (String × JVal)}
    (h : pyTruthy ((List.lookup "items" fs).getD .null) = false) :
    after_accounts service (.obj fs) = ([], none) := by
  simp [after_accounts, bindV, pyGet, h]

theorem after_accounts_cons {service : Service} {fs : List (String × JVal)} {x : JVal}
    {rest : List JVal} (h : List.lookup "items" fs = some (.arr (x :: rest))) :
    after_accounts service (.obj fs) =
      bindV (pyGet x "id") (fun firstAccountId =>
        webproperties_step service firstAccountId) := by
  simp [after_accounts, bindV, pyGet, pyIndex0, pyTruthy, h]

theorem after_webproperties_falsy {service : Service} {aId : JVal}
    {fs : List (String × JVal)}
    (h : pyTruthy ((List.lookup "items" fs).getD .null) = false) :
    after_webproperties service aId (.obj fs) = ([], none) := by
  simp [after_webproperties, bindV, pyGet, h]

theorem after_webproperties_cons {service : Service} {aId : JVal}
    {fs : List (String × JVal)} {x : JVal} {rest : List JVal}
    (h : List.lookup "items" fs = some (.arr (x :: rest))) :
    after_webproperties service aId (.obj fs) =
      bindV (pyGet x "id") (fun firstWebpropertyId =>
        profiles_step service aId firstWebpropertyId) := by
  simp [after_webproperties, bindV, pyGet, pyIndex0, pyTruthy, h]

theorem after_profiles_falsy {service : Service} {aId wId : JVal}
    {fs : List (String × JVal)}
    (h : pyTruthy ((List.lookup "items" fs).getD .null) = false) :
    after_profiles service aId wId (.obj fs) = ([], none) := by
  simp [after_profiles, bindV, pyGet, h]

theorem after_profiles_cons {service : Service} {aId wId : JVal}
    {fs : List (String × JVal)} {x : JVal} {rest : List JVal}
    (h : List.lookup "items" fs = some (.arr (x :: rest))) :
    after_profiles service aId wId (.obj fs) =
      bindV (pyGet x "id") (fun firstProfileId =>
        goals_step service aId wId firstProfileId) := by
  simp [after_profiles, bindV, pyGet, pyIndex0, pyTruthy, h]

/-- C4: at each of the three levels, the traversal descends only when the
parent collection's item list is truthy, and the parent key passed to the
next list call is read from the item at index 0 alone: with items
`x :: rest` the descent block equals the next step applied to
`x.get('id')`, a term not mentioning `rest`, so no item beyond index 0 is
ever read when selecting a parent key; with a falsy item list the descent
block does nothing. -/
theorem traversal_uses_first_item_only :
    (∀ (service : Service) (fs : List (String × JVal)),
        pyTruthy ((List.lookup "items" fs).getD .null) = false →
        after_accounts service (.obj fs) = ([], none)) ∧
    (∀ (service : Service) (fs : List (String × JVal)) (x : JVal) (rest : List JVal),
        List.lookup "items" fs = some (.arr (x :: rest)) →
        after_accounts service (.obj fs) =
          bindV (pyGet x "id") (fun firstAccountId =>
            webproperties_step service firstAccountId)) ∧
    (∀ (service : Service) (aId : JVal) (fs : List (String × JVal)),
        pyTruthy ((List.lookup "items" fs).getD .null) = false →
        after_webproperties service aId (.obj fs) = ([], none)) ∧
    (∀ (service : Service) (aId : JVal) (fs : List (String × JVal)) (x : JVal)
        (rest : List JVal),
        List.lookup "items" fs = some (.arr (x :: rest)) →
        after_webproperties service aId (.obj fs) =
          bindV (pyGet x "id") (fun firstWebpropertyId =>
            profiles_step service aId firstWebpropertyId)) ∧
    (∀ (service : Service) (aId wId : JVal) (fs : List (String × JVal)),
        pyTruthy ((List.lookup "items" fs).getD .null) = false →
        after_profiles service aId wId (.obj fs) = ([], none)) ∧
    (∀ (service : Service) (aId wId : JVal) (fs : List (String × JVal)) (x : JVal)
        (rest : List JVal),
        List.lookup "items" fs = some (.arr (x :: rest)) →
        after_profiles service aId wId (.obj fs) =
          bindV (pyGet x "id") (fun firstProfileId =>
            goals_step service aId wId firstProfileId)) := by
  refine ⟨?_, ?_, ?_, ?_, ?_, ?_⟩
  · intro service fs h
    exact after_accounts_falsy h
  · intro service fs x rest h
    exact after_accounts_cons h
  · intro service aId fs h
    exact after_webproperties_falsy h
  · intro service aId fs x rest h
    exact after_webproperties_cons h
  · intro service aId wId fs h
    exact after_profiles_falsy h
  · intro service aId wId fs x rest h
    exact after_profiles_cons h

/-- Witness for C4 at a service with two account items: only the first is
read for the parent key. -/
theorem traversal_uses_first_item_only_witness :
    after_accounts trivialService (.obj []) = ([], none) ∧
    after_accounts trivialService
        (.obj [("items", .arr [.obj [("id", .str "A1")], .obj [("id", .str "A2")]])]) =
      bindV (pyGet (.obj [("id", .str "A1")]) "id") (fun firstAccountId =>
        webproperties_step trivialService firstAccountId) :=
  ⟨traversal_uses_first_item_only.1 trivialService [] rfl,
   traversal_uses_first_item_only.2.1 trivialService
     [("items", .arr [.obj [("id", .str "A1")], .obj [("id", .str "A2")]])]
     (.obj [("id", .str "A1")]) [.obj [("id", .str "A2")]] rfl⟩

/-- C5: when a caught error kind (`TypeError`, `HttpError`,
`AccessTokenRefreshError`) escapes the traversal, `main` aborts the
remaining steps, appends exactly one diagnostic line (for an `HttpError`,
carrying its status and reason) to whatever was already printed, and
terminates normally; in particular a 403 `HttpError` on the web properties
call leaves only the accounts section plus the one diagnostic line — no
profiles, goals or segments sections. -/
theorem caught_errors_print_single_diagnostic :
    (∀ (service : Service) (out : List String) (e : PyError),
        traverse_hiearchy service = (out, some e) → recognized e = true →
        script_main service = (out ++ [diagMsg e], none)) ∧
    (∀ (service : Service) (fs : List (String × JVal)) (x aId : JVal) (rest : List JVal),
        service.accountsResponse = .ok (.obj fs) →
        List.lookup "items" fs = some (.arr (x :: rest)) →
        pyGet x "id" = .ok aId →
        service.webpropertiesResponse aId = .error (.httpError 403 "insufficient permission") →
        (print_accounts (.obj fs)).2 = none →
        script_main service =
          ((print_accounts (.obj fs)).1 ++
            ["Arg, there was an API error : 403 : insufficient permission"], none)) := by
  constructor
  · intro service out e htrav hrec
    cases e <;> simp [recognized] at hrec <;> simp [script_main, htrav, diagMsg]
  · intro service fs x aId rest hacc hitems hkey hwp hpa
    have h1 : webproperties_step service aId =
        ([], some (.httpError 403 "insufficient permission")) := by
      simp [webproperties_step, hwp, bindV]
    have h2 : after_accounts service (.obj fs) =
        ([], some (.httpError 403 "insufficient permission")) := by
      rw [after_accounts_cons hitems, hkey]
      simp only [bindV]
      exact h1
    have h3 : traverse_hiearchy service =
        ((print_accounts (.obj fs)).1, some (.httpError 403 "insufficient permission")) := by
      unfold traverse_hiearchy
      rw [hacc]
      have hin : bindV (Except.ok (JVal.obj fs))
          (fun accounts => andThen (print_accounts accounts) (after_accounts service accounts)) =
          ((print_accounts (.obj fs)).1, some (.httpError 403 "insufficient permission")) := by
        simp only [bindV]
        rw [h2, andThen_of_none hpa]
        simp
      rw [hin, andThen_of_some rfl]
    simp only [script_main]
    rw [h3]
    rfl

/-- Witness for C5: a concrete service whose web properties call raises a
403 `HttpError`. -/
theorem caught_errors_print_single_diagnostic_witness :
    script_main failingService =
      ((print_accounts (.obj [("items",
        .arr [.obj [("id", .str "12345"), ("childLink", .obj [])]])])).1 ++
        ["Arg, there was an API error : 403 : insufficient permission"], none) :=
  caught_errors_print_single_diagnostic.2 failingService
    [("items", .arr [.obj [("id", .str "12345"), ("childLink", .obj [])]])]
    (.obj [("id", .str "12345"), ("childLink", .obj [])]) (.str "12345")
    [] rfl rfl rfl rfl rfl

/-- C6: whenever the hierarchy walk (accounts fetch-and-print plus the
conditional descent) completes without error, the segments collection is
fetched and printed exactly once, appended after the walk's output,
whatever the walk did; in particular, with an accounts response whose item
list is empty or absent, the web properties, profiles and goals steps are
skipped entirely and the traversal is exactly the accounts section
followed by the segments section. -/
theorem segments_always_printed :
    (∀ (service : Service) (hout : List String),
        bindV service.accountsResponse (fun accounts =>
          andThen (print_accounts accounts) (after_accounts service accounts)) =
            (hout, none) →
        traverse_hiearchy service =
          (hout ++ (bindV service.segmentsResponse print_segments).1,
           (bindV service.segmentsResponse print_segments).2)) ∧
    (∀ (service : Service) (fs : List (String × JVal)),
        service.accountsResponse = .ok (.obj fs) →
        (List.lookup "items" fs = none ∨ List.lookup "items" fs = some (.arr [])) →
        traverse_hiearchy service =
          andThen (print_accounts (.obj fs))
            (bindV service.segmentsResponse print_segments)) := by
  constructor
  · intro service hout h
    unfold traverse_hiearchy
    rw [h, andThen_of_none rfl]
  · intro service fs hacc h
    have hfal : pyTruthy ((List.lookup "items" fs).getD .null) = false := by
      rcases h with h | h <;> simp [h, Option.getD, pyTruthy]
    unfold traverse_hiearchy
    rw [hacc]
    simp only [bindV]
    rw [after_accounts_falsy hfal, andThen_unit]

/-- Witness for C6: a service with zero accounts still prints segments. -/
theorem segments_always_printed_witness :
    traverse_hiearchy emptyAccountsService =
      andThen (print_accounts (.obj [("items", .arr [])]))
        (bindV emptyAccountsService.segmentsResponse print_segments) :=
  segments_always_printed.2 emptyAccountsService [("items", .arr [])] rfl (Or.inr rfl)

/-- C7 (counterexample): a `previousLink` that is present but empty (the
empty string, falsy in Python) is not printed, refuting the claim's "if
and only if previousLink is present": on a response carrying
`previousLink = ""` the pagination block has no `Previous Link` line. -/
theorem pagination_present_empty_link_not_printed :
    print_pagination_info (.obj [("previousLink", .str "")]) =
      (["Items per page = None", "Total Results  = None", "Start Index    = None"], none) ∧
    List.lookup "previousLink" [("previousLink", JVal.str "")] = some (.str "") :=
  ⟨rfl, rfl⟩

/-- C7 (amended): the pagination printer prints `itemsPerPage`,
`totalResults` and `startIndex` unconditionally and in that fixed order,
then a `previousLink` line if and only if `previousLink` is present with a
truthy value, then a `nextLink` line if and only if `nextLink` is present
with a truthy value (with `previousLink` before `nextLink` when both are
printed); present-but-falsy links are omitted. -/
theorem pagination_prints_links_iff_truthy (fs : List (String × JVal)) :
    print_pagination_info (.obj fs) =
      (["Items per page = " ++ pyStr ((List.lookup "itemsPerPage" fs).getD .null),
        "Total Results  = " ++ pyStr ((List.lookup "totalResults" fs).getD .null),
        "Start Index    = " ++ pyStr ((List.lookup "startIndex" fs).getD .null)]
       ++ (if pyTruthy ((List.lookup "previousLink" fs).getD .null) then
             ["Previous Link  = " ++ pyStr ((List.lookup "previousLink" fs).getD .null)]
           else [])
       ++ (if pyTruthy ((List.lookup "nextLink" fs).getD .null) then
             ["Next Link      = " ++ pyStr ((List.lookup "nextLink" fs).getD .null)]
           else []), none) :=
  pagination_obj fs

/-- C8: for every event condition (a dict), the event sub-formatter prints
the type line and then, when the type equals the string CATEGORY, ACTION
or LABEL, exactly the matchType and expression lines and no comparison
lines; for every other type value — VALUE, any other string, a missing
type, or a non-string — exactly the comparisonType and comparisonValue
lines and no match lines.  The second conjunct identifies the branch test
with membership in {CATEGORY, ACTION, LABEL}. -/
theorem event_condition_branching (fs : List (String × JVal)) :
    print_event_condition (.obj fs) =
      (("Type             = " ++ pyStr ((List.lookup "type" fs).getD .null)) ::
        (if isEventTextType ((List.lookup "type" fs).getD .null) then
          ["Match Type       = " ++ pyStr ((List.lookup "matchType" fs).getD .null),
           "Expression       = " ++ pyStr ((List.lookup "expression" fs).getD .null)]
        else
          ["Comparison Type  = " ++ pyStr ((List.lookup "comparisonType" fs).getD .null),
           "Comparison Value = " ++ pyStr ((List.lookup "comparisonValue" fs).getD .null)]),
       none) ∧
    (∀ t : JVal, isEventTextType t = true ↔
      (t = .str "CATEGORY" ∨ t = .str "ACTION" ∨ t = .str "LABEL")) := by
  constructor
  · by_cases hb : isEventTextType ((List.lookup "type" fs).getD .null) = true <;>
      simp [print_event_condition, bindV, pyGet, seqAll, andThen, plnE, pln, hb]
  · intro t
    cases t <;> simp [isEventTextType, or_assoc]

/-- C9: the goal-detail dispatch tests each optional detail field by
truthiness, so a detail field present as an empty dict is treated exactly
as absent: the dispatch falls through to the next field in priority order
(first conjunct: an empty urlDestinationDetails with a truthy
visitTimeOnSiteDetails selects the visit-time sub-formatter); a goal
whose four detail fields are all present-but-empty gets no detail section
at all (second conjunct); and a present-but-empty field is never the
selected one (third conjunct). -/
theorem empty_detail_fields_treated_as_absent :
    (∀ (fs : List (String × JVal)) (v : JVal),
        List.lookup "urlDestinationDetails" fs = some (.obj []) →
        List.lookup "visitTimeOnSiteDetails" fs = some v →
        pyTruthy v = true →
        goal_detail_dispatch (.obj fs) = print_visit_time_on_site_goal_details v) ∧
    (∀ fs : List (String × JVal),
        List.lookup "urlDestinationDetails" fs = some (.obj []) →
        List.lookup "visitTimeOnSiteDetails" fs = some (.obj []) →
        List.lookup "visitNumPagesDetails" fs = some (.obj []) →
        List.lookup "eventDetails" fs = some (.obj []) →
        goal_detail_dispatch (.obj fs) = ([], none)) ∧
    (∀ (fs : List (String × JVal)) (k : String),
        List.lookup k fs = some (.obj []) →
        firstTruthyDetail fs ≠ some k) := by
  refine ⟨?_, ?_, ?_⟩
  · intro fs v h1 h2 ht
    have he : pyTruthy (JVal.obj ([] : List (String × JVal))) = false := rfl
    simp [goal_detail_dispatch, bindV, pyGet, h1, h2, he, ht]
  · intro fs h1 h2 h3 h4
    have he : pyTruthy (JVal.obj ([] : List (String × JVal))) = false := rfl
    simp [goal_detail_dispatch, bindV, pyGet, h1, h2, h3, h4, he]
  · intro fs k hk hfind
    simp only [firstTruthyDetail] at hfind
    have hp := List.find?_some hfind
    simp only [hk, Option.getD] at hp
    simp [pyTruthy] at hp

/-- Witness for C9: an empty urlDestinationDetails falls through to a
truthy visitTimeOnSiteDetails. -/
theorem empty_detail_fields_treated_as_absent_witness :
    goal_detail_dispatch (.obj [("urlDestinationDetails", .obj []),
        ("visitTimeOnSiteDetails", .obj [("comparisonType", .str "GREATER_THAN")])]) =
      print_visit_time_on_site_goal_details
        (.obj [("comparisonType", .str "GREATER_THAN")]) :=
  empty_detail_fields_treated_as_absent.1
    [("urlDestinationDetails", .obj []),
     ("visitTimeOnSiteDetails", .obj [("comparisonType", .str "GREATER_THAN")])]
    (.obj [("comparisonType", .str "GREATER_THAN")]) rfl rfl rfl

/-- C10: the traversal-and-report routine is deterministic in its inputs:
two runs whose five service list calls return identical responses produce
the identical complete sequence of output lines (and the same exit
behavior) — the output depends on nothing besides the five responses. -/
theorem output_deterministic (s1 s2 : Service)
    (h1 : s1.accountsResponse = s2.accountsResponse)
    (h2 : ∀ a, s1.webpropertiesResponse a = s2.webpropertiesResponse a)
    (h3 : ∀ a w, s1.profilesResponse a w = s2.profilesResponse a w)
    (h4 : ∀ a w p, s1.goalsResponse a w p = s2.goalsResponse a w p)
    (h5 : s1.segmentsResponse = s2.segmentsResponse) :
    script_main s1 = script_main s2 := by
  obtain ⟨a1, w1, p1, g1, sg1⟩ := s1
  obtain ⟨a2, w2, p2, g2, sg2⟩ := s2
  have e1 : a1 = a2 := h1
  have e5 : sg1 = sg2 := h5
  have ew : w1 = w2 := funext fun a => h2 a
  have ep : p1 = p2 := funext fun a => funext fun w => h3 a w
  have eg : g1 = g2 := funext fun a => funext fun w => funext fun p => h4 a w p
  subst e1
  subst e5
  subst ew
  subst ep
  subst eg
  rfl

/-- Witness for C10 at a concrete pair of services. -/
theorem output_deterministic_witness :
    script_main trivialService = script_main trivialService :=
  output_deterministic trivialService trivialService rfl (fun _ => rfl)
    (fun _ _ => rfl) (fun _ _ _ => rfl) rfl
